import Mathlib

/-!
Shallow embedding of the download-orchestration core of the
Game-Downloader repository: the SteamCMD output classification
(src/app/services/steam_cmd.py), the queue/scheduler
(src/app/services/downloader.py), and the progress parsing, process exit
classification and cancellation paths of src/main.py.  All definitions
are direct transcriptions of the Python source; theorems check the
frozen specification claims against them.
-/

namespace GameDownloader

/-! ### String helpers modelling Python primitives -/

/-- Python substring test `pat in s` (case-sensitive), as used throughout
the source for output matching. -/
def strContains (s pat : String) : Bool :=
  (List.range (s.toList.length + 1)).any (fun i => pat.toList.isPrefixOf (s.toList.drop i))

/-! ### src/app/services/steam_cmd.py -/

/-- Ordered error pattern table of `SteamCMD._parse_error`
(steam_cmd.py lines 165-171); a Python dict preserves insertion order,
so iteration visits the pairs in this order. -/
def error_patterns : List (String × String) :=
  [("Invalid Password", "Invalid password provided"),
   ("Invalid Username", "Invalid username provided"),
   ("No subscription", "You don\x27t own this game or it requires purchase"),
   ("Need two-factor code", "Steam Guard code required"),
   ("rate limited", "Too many attempts, please wait and try again")]

/-- The lookup loop of `_parse_error` (lines 173-177): first pattern
contained in the output wins, otherwise the fixed default message. -/
def lookupError : List (String × String) → String → String
  | [], _ => "Unknown error occurred"
  | (pat, msg) :: rest, output =>
      if strContains output pat then msg else lookupError rest output

/-- `SteamCMD._parse_error` (steam_cmd.py lines 163-177). -/
def parse_error (output : String) : String :=
  lookupError error_patterns output

/-- The success marker checked by `SteamCMD.download_game`
(steam_cmd.py line 153). -/
def successMarker : String := "Success! App \x27"

/-- Result classification of `SteamCMD.download_game` after the external
process has finished (steam_cmd.py lines 152-157): success flag and
message from the exit code and the accumulated stdout. -/
def download_game_result (returncode : Int) (stdout : String) : Bool × String :=
  if returncode = 0 ∧ strContains stdout successMarker = true then
    (true, "Download completed successfully")
  else
    (false, "Download failed: " ++ parse_error stdout)

/-! ### src/main.py `monitor_download`: success marker and exit classification -/

/-- Per-line success detection in `monitor_download` (main.py lines
606-611): a line containing both marker substrings sets the job to
Completed with progress 100.  State is (status, progressPercent). -/
def monitor_line_success (st : String × ℚ) (line : String) : String × ℚ :=
  if strContains line "Success! App" && strContains line "fully installed" then
    ("Completed", 100)
  else st

/-- Exit classification in `monitor_download` (main.py lines 627-634):
a zero return code always yields status Completed (forcing progress to
100 when the marker was never seen); a nonzero code yields
`Failed (Code: N)`. -/
def monitor_final (st : String × ℚ) (returnCode : Int) : String × ℚ :=
  if returnCode = 0 then
    if st.1 ≠ "Completed" then ("Completed", 100) else st
  else
    ("Failed (Code: " ++ toString returnCode ++ ")", st.2)

/-! ### Claim C1 -/

/-- C1 (counterexample): the claim says a process exiting with code 0 and
no success marker ever parsed ends Failed with reason "unconfirmed
completion", never Completed.  In `monitor_download`, after a markerless
output line, a zero exit code classifies the job Completed. -/
theorem c1_counterexample_zero_exit_no_marker_completes :
    (monitor_final (monitor_line_success ("Downloading", 37) "Update state (0x61) downloading") 0).1
        = "Completed" ∧
    (monitor_final (monitor_line_success ("Downloading", 37) "Update state (0x61) downloading") 0).1
        ≠ "Failed - unconfirmed completion" := by
  constructor
  · decide
  · decide

/-- C1 (amended): `SteamCMD.download_game` classifies success exactly when
the exit code is zero and the success marker occurs in stdout, and any
failure message is derived from the error-pattern table, never
"unconfirmed completion"; `monitor_download` in main.py classifies
Completed on a zero exit code alone, marker or not, and
`Failed (Code: N)` on a nonzero exit code. -/
theorem c1_exit_classification (out : String) (st : String × ℚ) (rc : Int)
    (h : rc ≠ 0) :
    ((download_game_result 0 out).1 = true ↔ strContains out successMarker = true) ∧
    (monitor_final st 0).1 = "Completed" ∧
    (download_game_result rc out).1 = false ∧
    (download_game_result rc out).2 = "Download failed: " ++ parse_error out ∧
    (monitor_final st rc).1 = "Failed (Code: " ++ toString rc ++ ")" := by
  refine ⟨?_, ?_, ?_, ?_, ?_⟩
  · unfold download_game_result
    split
    · rename_i hc
      simp [hc.2]
    · rename_i hc
      simp only [Bool.false_eq_true, false_iff]
      intro hm
      exact hc ⟨rfl, hm⟩
  · unfold monitor_final
    rcases eq_or_ne st.1 "Completed" with hs | hs
    · simp [hs]
    · simp [hs]
  · unfold download_game_result
    rw [if_neg]
    intro hc
    exact h hc.1
  · unfold download_game_result
    rw [if_neg]
    intro hc
    exact h hc.1
  · unfold monitor_final
    rw [if_neg h]

/-- Witness for `c1_exit_classification` at rc = 2, a concrete markerless
output and a concrete monitor state. -/
theorem c1_exit_classification_witness :
    ((download_game_result 0 "ERROR! Timeout").1 = true ↔
        strContains "ERROR! Timeout" successMarker = true) ∧
    (monitor_final ("Downloading", 5) 0).1 = "Completed" ∧
    (download_game_result 2 "ERROR! Timeout").1 = false ∧
    (download_game_result 2 "ERROR! Timeout").2
        = "Download failed: " ++ parse_error "ERROR! Timeout" ∧
    (monitor_final ("Downloading", 5) 2).1 = "Failed (Code: " ++ toString (2 : Int) ++ ")" :=
  c1_exit_classification "ERROR! Timeout" ("Downloading", 5) 2 (by decide)

/-! ### Claim C8 -/

/-- C8 (counterexample): the claim maps invalid-credential output to the
reason "authentication failed"; `_parse_error` actually returns
"Invalid password provided", and no classified reason carries an exit
code. -/
theorem c8_counterexample_reason_strings :
    parse_error "FAILED login with result code Invalid Password" = "Invalid password provided" ∧
    parse_error "FAILED login with result code Invalid Password" ≠ "authentication failed" := by
  constructor
  · decide
  · decide

/-- C8 (amended): classification is by case-sensitive substring match over
the ordered pattern table, first match winning: "Invalid Password" maps
to "Invalid password provided", then "Invalid Username" to
"Invalid username provided", then "No subscription" to the ownership
message, then "Need two-factor code" to "Steam Guard code required",
then "rate limited" to the rate-limit message; any other output maps to
"Unknown error occurred" (the exit code never appears in the reason). -/
theorem c8_first_match_classification (out : String) :
    (strContains out "Invalid Password" = true →
      parse_error out = "Invalid password provided") ∧
    (strContains out "Invalid Password" = false →
      strContains out "Invalid Username" = true →
      parse_error out = "Invalid username provided") ∧
    (strContains out "Invalid Password" = false →
      strContains out "Invalid Username" = false →
      strContains out "No subscription" = true →
      parse_error out = "You don\x27t own this game or it requires purchase") ∧
    (strContains out "Invalid Password" = false →
      strContains out "Invalid Username" = false →
      strContains out "No subscription" = false →
      strContains out "Need two-factor code" = true →
      parse_error out = "Steam Guard code required") ∧
    (strContains out "Invalid Password" = false →
      strContains out "Invalid Username" = false →
      strContains out "No subscription" = false →
      strContains out "Need two-factor code" = false →
      strContains out "rate limited" = true →
      parse_error out = "Too many attempts, please wait and try again") ∧
    (strContains out "Invalid Password" = false →
      strContains out "Invalid Username" = false →
      strContains out "No subscription" = false →
      strContains out "Need two-factor code" = false →
      strContains out "rate limited" = false →
      parse_error out = "Unknown error occurred") := by
  unfold parse_error error_patterns lookupError
  refine ⟨?_, ?_, ?_, ?_, ?_, ?_⟩ <;>
    · intros
      simp_all [lookupError]

/-- Witness for `c8_first_match_classification`: an output containing both
"Invalid Password" and "No subscription" is classified by the first
pattern in table order. -/
theorem c8_first_match_classification_witness :
    parse_error "No subscription, also Invalid Password" = "Invalid password provided" :=
  (c8_first_match_classification "No subscription, also Invalid Password").1 (by decide)

/-! ### src/main.py `update_download_progress`: regex scanning

The function matches three regular expressions against each output line:
pattern 1 `(\d+\.\d+)% done` and pattern 3
`Downloading update \(([0-9,]+) of ([0-9,]+) bytes\)` update the stored
`progress`; pattern 2 (download rate) and the ETA computation update only
the `speed`/`eta` strings and are outside every claim, so they are not
modelled.  Because the digit classes of the patterns are disjoint from
the literal characters that follow them, Python regex backtracking never
fires, and leftmost greedy scanning is an exact model of `re.search`. -/

/-- Numeric value of a digit run, as Python `float`/`int` conversion reads
it (most significant first). -/
def natOfDigits (ds : List Char) : Nat :=
  ds.foldl (fun n c => 10 * n + (c.toNat - 48)) 0

/-- Greedy `\d+` span. -/
def spanDigits (l : List Char) : List Char × List Char :=
  (l.takeWhile Char.isDigit, l.dropWhile Char.isDigit)

/-- Greedy `[0-9,]+` span. -/
def spanDigitComma (l : List Char) : List Char × List Char :=
  (l.takeWhile (fun c => c.isDigit || c == ','), l.dropWhile (fun c => c.isDigit || c == ','))

/-- Match `\d+\.\d+` at the current position, returning its rational value
and the rest of the input. -/
def matchFixedPoint (l : List Char) : Option (ℚ × List Char) :=
  let s1 := spanDigits l
  if s1.1 = [] then none else
  match s1.2 with
  | '.' :: r2 =>
    let s2 := spanDigits r2
    if s2.1 = [] then none
    else some ((natOfDigits s1.1 : ℚ) + (natOfDigits s2.1 : ℚ) / (10 : ℚ) ^ s2.1.length, s2.2)
  | _ => none

/-- Match pattern 1, `(\d+\.\d+)% done`, at the current position. -/
def matchPctDoneAt (l : List Char) : Option ℚ :=
  match matchFixedPoint l with
  | some (v, rest) => if "% done".toList.isPrefixOf rest then some v else none
  | none => none

/-- `re.search` for pattern 1: leftmost match wins. -/
def searchPctDone : List Char → Option ℚ
  | [] => none
  | c :: rest =>
    match matchPctDoneAt (c :: rest) with
    | some v => some v
    | none => searchPctDone rest

/-- Match pattern 3, `Downloading update \(([0-9,]+) of ([0-9,]+) bytes\)`,
at the current position, returning the two byte counts after Python's
`.replace(",", "")` and `int`.  (A group consisting of commas only would
make `int` raise and abort the update; that pathological case is modelled
as no match.) -/
def matchBytesAt (l : List Char) : Option (Nat × Nat) :=
  if "Downloading update (".toList.isPrefixOf l then
    let r1 := l.drop "Downloading update (".toList.length
    let g1 := spanDigitComma r1
    if g1.1.filter Char.isDigit = [] then none else
    if " of ".toList.isPrefixOf g1.2 then
      let r3 := g1.2.drop " of ".toList.length
      let g2 := spanDigitComma r3
      if g2.1.filter Char.isDigit = [] then none else
      if " bytes)".toList.isPrefixOf g2.2 then
        some (natOfDigits (g1.1.filter Char.isDigit), natOfDigits (g2.1.filter Char.isDigit))
      else none
    else none
  else none

/-- `re.search` for pattern 3: leftmost match wins. -/
def searchBytes : List Char → Option (Nat × Nat)
  | [] => none
  | c :: rest =>
    match matchBytesAt (c :: rest) with
    | some p => some p
    | none => searchBytes rest

/-- The per-job fields of `active_downloads` that
`update_download_progress` can change through the modelled branches. -/
structure ProgressState where
  progress : ℚ
  status : String
deriving DecidableEq, Repr

/-- `update_download_progress` (main.py lines 1738-1800), restricted to the
branches that touch `progress` and `status`: pattern 1 overwrites
`progress` with the parsed percent; pattern 3 then overwrites it with
`current/total*100` when `total > 0`; finally the phase substrings update
`status`.  No branch compares the new value with the stored one and no
branch clamps it. -/
def update_download_progress (st : ProgressState) (line : String) : ProgressState :=
  let l := line.toList
  let st1 :=
    match searchPctDone l with
    | some v => { st with progress := v }
    | none => st
  let st2 :=
    match searchBytes l with
    | some p => if 0 < p.2 then { st1 with progress := (p.1 : ℚ) / (p.2 : ℚ) * 100 } else st1
    | none => st1
  if strContains line "Validating installation" then { st2 with status := "Validating" }
  else if strContains line "Downloading update" then { st2 with status := "Downloading" }
  else if strContains line "Installing update" then { st2 with status := "Installing" }
  else st2

/-! ### Claim C3 -/

/-- C3 (counterexample): the claim says a newly parsed percent strictly
lower than the stored one, with no intervening phase change, is
discarded.  Feeding a 45.0% line and then a 10.0% line (neither line
contains any phase-change substring, so the status never changes),
`update_download_progress` stores 10, not 45. -/
theorem c3_counterexample_lower_percent_overwrites :
    (update_download_progress
      (update_download_progress ⟨0, "Downloading"⟩ "Update state (0x61) downloading: 45.0% done")
      "Update state (0x61) downloading: 10.0% done").progress = 10 ∧
    ¬ (update_download_progress
      (update_download_progress ⟨0, "Downloading"⟩ "Update state (0x61) downloading: 45.0% done")
      "Update state (0x61) downloading: 10.0% done").progress = 45 ∧
    (update_download_progress ⟨0, "Downloading"⟩
      "Update state (0x61) downloading: 45.0% done").status = "Downloading" ∧
    (update_download_progress
      (update_download_progress ⟨0, "Downloading"⟩ "Update state (0x61) downloading: 45.0% done")
      "Update state (0x61) downloading: 10.0% done").status = "Downloading" := by
  with_unfolding_all decide

/-- C3 (amended): the stored percent is simply overwritten by every newly
parsed percent value, lower or not, phase change or not: whenever
pattern 1 parses `v` from the line (and the byte-ratio pattern 3 does not
also match), the stored progress after the update is exactly `v`,
regardless of the previously stored value. -/
theorem c3_parsed_percent_overwrites (st : ProgressState) (line : String) (v : ℚ)
    (h1 : searchPctDone line.toList = some v) (h2 : searchBytes line.toList = none) :
    (update_download_progress st line).progress = v := by
  simp only [update_download_progress, h1, h2]
  split_ifs <;> rfl

/-- Witness for `c3_parsed_percent_overwrites`: a job already at 45%
receives a 10.0% line and drops to 10. -/
theorem c3_parsed_percent_overwrites_witness :
    (update_download_progress ⟨45, "Downloading"⟩
      "Update state (0x61) downloading: 10.0% done").progress = 10 :=
  c3_parsed_percent_overwrites ⟨45, "Downloading"⟩
    "Update state (0x61) downloading: 10.0% done" 10
    (by with_unfolding_all decide) (by with_unfolding_all decide)

/-! ### Claim C9 -/

/-- C9 (counterexample): the claim says every stored percent is clamped to
[0,100].  A line whose numeric text is 150.5 is stored as 150.5 > 100;
no clamping happens anywhere in `update_download_progress`. -/
theorem c9_counterexample_percent_not_clamped :
    (update_download_progress ⟨0, "Downloading"⟩
      "Update state (0x61) downloading: 150.5% done").progress = 301 / 2 ∧
    ¬ (update_download_progress ⟨0, "Downloading"⟩
      "Update state (0x61) downloading: 150.5% done").progress ≤ 100 := by
  with_unfolding_all decide

/-! #### src/app/steam_handler.py `SteamCMD._parse_progress`

The second progress-parsing path the claim cites is not pattern-based:
`_parse_progress` (steam_handler.py lines 121-129) takes everything after
the first `"Progress:"` (Python `line.split("Progress:")[1]` stops at the
next occurrence), strips surrounding whitespace and trailing `%` signs,
and hands the remaining text — sign included — to `float()`.
`DownloadManager._monitor_download` (app/downloader.py lines 109-119)
stores the returned value untouched. -/

/-- Python whitespace, as `str.strip()` removes it. -/
def isPyWhitespace (c : Char) : Bool :=
  c == ' ' || c == '\t' || c == '\n' || c == '\r' || c == '\x0b' || c == '\x0c'

/-- Python `s.strip()` on a char list. -/
def pyStripList (l : List Char) : List Char :=
  ((l.dropWhile isPyWhitespace).reverse.dropWhile isPyWhitespace).reverse

/-- Python `s.strip()` on a string. -/
def pyStrip (s : String) : String :=
  ⟨pyStripList s.toList⟩

/-- Python `s.rstrip("%")`: remove every trailing percent sign. -/
def pyRstripPercent (l : List Char) : List Char :=
  (l.reverse.dropWhile (fun c => c == '%')).reverse

/-- Everything after the first occurrence of `pat`, or `none` when `pat`
does not occur (the branch `line.split(pat)[1]` cannot reach, being
guarded by `pat in line`). -/
def splitFirstAux (pat : List Char) : List Char → Option (List Char)
  | [] => none
  | c :: rest =>
    if pat.isPrefixOf (c :: rest) then some ((c :: rest).drop pat.length)
    else splitFirstAux pat rest

/-- The prefix up to the next occurrence of `pat`: combined with
`splitFirstAux` this is Python `line.split(pat)[1]`. -/
def takeUntilPat (pat : List Char) : List Char → List Char
  | [] => []
  | c :: rest => if pat.isPrefixOf (c :: rest) then [] else c :: takeUntilPat pat rest

/-- The unsigned decimal forms Python `float()` accepts: `d+`, `d+.`,
`d+.d+`, `.d+`. -/
def pyUnsignedFloat? (l : List Char) : Option ℚ :=
  let s1 := spanDigits l
  match s1.2 with
  | [] => if s1.1 = [] then none else some (natOfDigits s1.1 : ℚ)
  | '.' :: r2 =>
    let s2 := spanDigits r2
    if s2.2 = [] then
      if s1.1 = [] ∧ s2.1 = [] then none
      else some ((natOfDigits s1.1 : ℚ) + (natOfDigits s2.1 : ℚ) / (10 : ℚ) ^ s2.1.length)
    else none
  | _ => none

/-- Python `float(s)` on the text forms a progress line can carry: an
optionally signed decimal with surrounding whitespace allowed.  Exotic
accepted forms (`inf`, `nan`, exponents), which no SteamCMD progress text
produces, are treated like any other unparsable text: `none`, the
ValueError path. -/
def pyFloat? (l : List Char) : Option ℚ :=
  match pyStripList l with
  | '-' :: rest => (pyUnsignedFloat? rest).map (fun v => -v)
  | '+' :: rest => pyUnsignedFloat? rest
  | l2 => pyUnsignedFloat? l2

/-- `SteamCMD._parse_progress` (steam_handler.py lines 121-129): when
`"Progress:"` occurs and the text after it converts, return the converted
value — sign and magnitude untouched — with the stripped line; otherwise
(no marker, or `float()` raising) return 0.0 with the stripped line. -/
def parse_progress (line : String) : ℚ × String :=
  match splitFirstAux "Progress:".toList line.toList with
  | some rest =>
    match pyFloat? (pyRstripPercent (pyStripList (takeUntilPat "Progress:".toList rest))) with
    | some v => (v, pyStrip line)
    | none => (0, pyStrip line)
  | none => (0, pyStrip line)

/-- One iteration of `DownloadManager._monitor_download`
(app/downloader.py lines 109-119) while the process is still running: the
value `_parse_progress` extracted from the line just read is stored as
the job's progress exactly as returned, the status being the enum value
`downloading` below 100 and `completed` otherwise. -/
def monitor_download_iter (line : String) : ℚ × String :=
  let p := parse_progress line
  (p.1, if p.1 < 100 then "downloading" else "completed")

/-- C9 (amended): no clamping is applied on any parsing path — the stored
percent is exactly the numeric value of the line's text.
`update_download_progress` stores pattern-parsed values above 100
unchanged (see the counterexample), and `_parse_progress` in
steam_handler.py `float()`-converts the signed text after `"Progress:"`,
so out-of-range values, negative ones included, are extracted and stored
untouched by the monitor loop in app/downloader.py. -/
theorem c9_parse_progress_stores_value_unclamped (line : String) (rest : List Char) (v : ℚ)
    (h1 : splitFirstAux "Progress:".toList line.toList = some rest)
    (h2 : pyFloat? (pyRstripPercent (pyStripList (takeUntilPat "Progress:".toList rest)))
        = some v) :
    parse_progress line = (v, pyStrip line) ∧
    (monitor_download_iter line).1 = v := by
  have hp : parse_progress line = (v, pyStrip line) := by
    simp only [parse_progress, h1, h2]
  exact ⟨hp, by simp [monitor_download_iter, hp]⟩

/-- Witness for `c9_parse_progress_stores_value_unclamped`: the line
`"Progress: -5.0%"` — numeric text below 0 — is extracted as -5.0 and
stored as -5.0, unclamped. -/
theorem c9_parse_progress_stores_value_unclamped_witness :
    splitFirstAux "Progress:".toList "Progress: -5.0%".toList = some " -5.0%".toList ∧
    pyFloat? (pyRstripPercent (pyStripList
        (takeUntilPat "Progress:".toList " -5.0%".toList))) = some (-5) ∧
    parse_progress "Progress: -5.0%" = (-5, pyStrip "Progress: -5.0%") ∧
    (monitor_download_iter "Progress: -5.0%").1 = -5 := by
  refine ⟨by with_unfolding_all decide, by with_unfolding_all decide, ?_, ?_⟩
  · exact (c9_parse_progress_stores_value_unclamped "Progress: -5.0%" " -5.0%".toList (-5)
      (by with_unfolding_all decide) (by with_unfolding_all decide)).1
  · exact (c9_parse_progress_stores_value_unclamped "Progress: -5.0%" " -5.0%".toList (-5)
      (by with_unfolding_all decide) (by with_unfolding_all decide)).2

/-! ### src/app/services/downloader.py: `DownloadManager`

The manager's mutable state is three containers guarded by one lock:
`active_downloads` (a Python dict, modelled as an insertion-ordered
association list with unique keys and overwrite-on-assign),
`download_queue` and `download_history` (lists).  Times are integer
seconds.  `settings` comes from `config.py` lines 30-31. -/

/-- Download settings (src/config.py lines 30-31). -/
structure Settings where
  MAX_CONCURRENT_DOWNLOADS : Nat
  MAX_HISTORY_SIZE : Nat
deriving DecidableEq, Repr

/-- The defaults declared in src/config.py. -/
def defaultSettings : Settings := ⟨1, 50⟩

/-- The `DownloadStatus` dataclass (downloader.py lines 13-24), with the
fields the claims touch. -/
structure DownloadStatus where
  id : String
  appid : String
  name : String
  progress : ℚ
  status : String
  start_time : Nat
  error : Option String
deriving DecidableEq, Repr

/-- A `download_info` dict as built by `start_download`
(downloader.py lines 57-65). -/
structure DownloadInfo where
  id : String
  appid : String
  name : String
  validate : Bool
deriving DecidableEq, Repr

/-- A history entry dict as built by `_add_to_history`
(downloader.py lines 156-163). -/
structure HistEntry where
  id : String
  appid : String
  name : String
  status : String
  error : Option String
  completed_at : Nat
deriving DecidableEq, Repr

/-- Python dict assignment `d[k] = v`: overwrite in place if the key
exists, else append (dicts preserve insertion order). -/
def dictInsert {β : Type} (m : List (String × β)) (k : String) (v : β) :
    List (String × β) :=
  if m.any (fun p => p.1 == k) then
    m.map (fun p => if p.1 == k then (p.1, v) else p)
  else m ++ [(k, v)]

/-- Python dict lookup `d.get(k)` / `d[k]`. -/
def dictFind? {β : Type} (m : List (String × β)) (k : String) : Option β :=
  (m.find? (fun p => p.1 == k)).map Prod.snd

/-- Python `k in d`. -/
def dictMem {β : Type} (m : List (String × β)) (k : String) : Bool :=
  m.any (fun p => p.1 == k)

/-- In-place mutation of the entry under `k` (`d[k].field = ...`). -/
def dictModify {β : Type} (m : List (String × β)) (k : String)
    (f : β → β) : List (String × β) :=
  m.map (fun p => if p.1 == k then (p.1, f p.2) else p)

/-- Python `del d[k]`. -/
def dictErase {β : Type} (m : List (String × β)) (k : String) :
    List (String × β) :=
  m.filter (fun p => p.1 != k)

/-- The whole of `DownloadManager`'s shared mutable state
(downloader.py lines 28-30). -/
structure ManagerState where
  active_downloads : List (String × DownloadStatus)
  download_queue : List DownloadInfo
  download_history : List HistEntry
deriving DecidableEq, Repr

/-- The fresh manager state built in `__init__`. -/
def initialState : ManagerState := ⟨[], [], []⟩

/-- The id assigned at submission time (downloader.py line 55):
`f"dl_{int(time.time())}_{appid}"`. -/
def mkDownloadId (t : Nat) (appid : String) : String :=
  "dl_" ++ toString t ++ "_" ++ appid

/-- The `DownloadStatus` created by `_start_download_thread`
(downloader.py lines 78-85). -/
def initStatus (info : DownloadInfo) (t : Nat) : DownloadStatus :=
  ⟨info.id, info.appid, info.name, 0, "Starting", t, none⟩

/-- `_start_download_thread` (downloader.py lines 76-94): registers the
job as Starting in the active map (the worker thread itself runs
separately). -/
def start_download_thread (st : ManagerState) (info : DownloadInfo) (t : Nat) : ManagerState :=
  { st with active_downloads := dictInsert st.active_downloads info.id (initStatus info t) }

/-- `DownloadManager.start_download` (downloader.py lines 40-74): assigns
the id, then under the lock either queues the request (when the active
map already holds `MAX_CONCURRENT_DOWNLOADS` entries) or starts it. -/
def start_download (s : Settings) (st : ManagerState) (t : Nat) (appid name : String)
    (validate : Bool) : String × ManagerState :=
  let download_id := mkDownloadId t appid
  let info : DownloadInfo := ⟨download_id, appid, name, validate⟩
  if s.MAX_CONCURRENT_DOWNLOADS ≤ st.active_downloads.length then
    (download_id, { st with download_queue := st.download_queue ++ [info] })
  else
    (download_id, start_download_thread st info t)

/-- The append-and-trim at the end of `_add_to_history`
(downloader.py lines 165-169): append, then pop the oldest entry when
the length exceeds `MAX_HISTORY_SIZE`. -/
def history_append (s : Settings) (h : List HistEntry) (e : HistEntry) : List HistEntry :=
  let h2 := h ++ [e]
  if s.MAX_HISTORY_SIZE < h2.length then h2.tail else h2

/-- `_add_to_history` (downloader.py lines 153-169): snapshot the entry
under `download_id` in the active map into the bounded history.  (On a
missing id Python would raise KeyError; every call site passes a present
id, modelled as the identity on the state.) -/
def add_to_history (s : Settings) (st : ManagerState) (download_id : String) (t : Nat) :
    ManagerState :=
  match dictFind? st.active_downloads download_id with
  | none => st
  | some d =>
      { st with download_history :=
          history_append s st.download_history ⟨d.id, d.appid, d.name, d.status, d.error, t⟩ }

/-- Terminal update of `_download_worker` (downloader.py lines 96-123):
under the lock, mark the job Completed (progress 100) or Failed (with
the message), then add it to history — without removing it from the
active map. -/
def download_worker_finish (s : Settings) (st : ManagerState) (download_id : String)
    (success : Bool) (message : String) (t : Nat) : ManagerState :=
  let newActive := dictModify st.active_downloads download_id (fun d =>
    if success then { d with status := "Completed", progress := 100 }
    else { d with status := "Failed", error := some message })
  add_to_history s { st with active_downloads := newActive } download_id t

/-- One removal step of `_cleanup_completed`: history snapshot, then
delete from the active map. -/
def cleanup_one (s : Settings) (st : ManagerState) (download_id : String) (t : Nat) :
    ManagerState :=
  let st1 := add_to_history s st download_id t
  { st1 with active_downloads := dictErase st1.active_downloads download_id }

/-- `_cleanup_completed` (downloader.py lines 140-151): every Completed or
Failed job older than 60 seconds is snapshotted to history once more and
removed from the active map. -/
def cleanup_completed (s : Settings) (st : ManagerState) (t : Nat) : ManagerState :=
  let completed_ids := (st.active_downloads.filter (fun p =>
    (p.2.status == "Completed" || p.2.status == "Failed") &&
      decide (60 < t - p.2.start_time))).map Prod.fst
  completed_ids.foldl (fun acc i => cleanup_one s acc i t) st

/-- The promotion loop of `_process_queue` (downloader.py lines 134-138):
while there is capacity and the queue is non-empty, pop the head and
start it. -/
def promoteFrom (s : Settings) (active : List (String × DownloadStatus)) (t : Nat) :
    List DownloadInfo → List (String × DownloadStatus) × List DownloadInfo
  | [] => (active, [])
  | info :: rest =>
    if active.length < s.MAX_CONCURRENT_DOWNLOADS then
      promoteFrom s (dictInsert active info.id (initStatus info t)) t rest
    else (active, info :: rest)

/-- One pass of the `_process_queue` polling loop (downloader.py lines
127-138): cleanup, then promote queued entries while capacity remains. -/
def process_queue_pass (s : Settings) (st : ManagerState) (t : Nat) : ManagerState :=
  let st1 := cleanup_completed s st t
  let pq := promoteFrom s st1.active_downloads t st1.download_queue
  { st1 with active_downloads := pq.1, download_queue := pq.2 }

/-- `DownloadManager.cancel_download` (downloader.py lines 183-197): an id
present in the active map — whatever its status — is marked Cancelled,
snapshotted to history, and reported true; otherwise the first queue
entry with that id is removed and reported true; otherwise false. -/
def cancel_download (s : Settings) (st : ManagerState) (download_id : String) (t : Nat) :
    Bool × ManagerState :=
  if dictMem st.active_downloads download_id then
    let newActive := dictModify st.active_downloads download_id
      (fun d => { d with status := "Cancelled" })
    (true, add_to_history s { st with active_downloads := newActive } download_id t)
  else if st.download_queue.any (fun info => info.id == download_id) then
    (true, { st with download_queue :=
      st.download_queue.eraseP (fun info => info.id == download_id) })
  else
    (false, st)

/-- The manager operations a client or worker thread can interleave; each
runs under the single `self.lock`, so a run is a sequence of these. -/
inductive Op where
  | submit (t : Nat) (appid name : String) (validate : Bool)
  | workerFinish (download_id : String) (success : Bool) (message : String) (t : Nat)
  | queuePass (t : Nat)
  | cancel (download_id : String) (t : Nat)
deriving DecidableEq, Repr

/-- Apply one operation to the manager state. -/
def applyOp (s : Settings) (st : ManagerState) : Op → ManagerState
  | .submit t appid name validate => (start_download s st t appid name validate).2
  | .workerFinish i ok msg t => download_worker_finish s st i ok msg t
  | .queuePass t => process_queue_pass s st t
  | .cancel i t => (cancel_download s st i t).2

/-- Run a sequence of operations from a state. -/
def runOps (s : Settings) (st : ManagerState) (ops : List Op) : ManagerState :=
  ops.foldl (applyOp s) st

/-- The number of active-map jobs in a non-terminal state. -/
def nonTerminalCount (st : ManagerState) : Nat :=
  (st.active_downloads.filter (fun p =>
    !(p.2.status == "Completed" || p.2.status == "Failed" || p.2.status == "Cancelled"))).length

/-! ### Length lemmas for the dict model -/

theorem dictInsert_length_le {β : Type} (m : List (String × β)) (k : String) (v : β) :
    (dictInsert m k v).length ≤ m.length + 1 := by
  unfold dictInsert
  split
  · rw [List.length_map]
    exact Nat.le_succ _
  · simp

theorem dictModify_length {β : Type} (m : List (String × β)) (k : String) (f : β → β) :
    (dictModify m k f).length = m.length := by
  unfold dictModify
  exact List.length_map _ _

theorem dictErase_length_le {β : Type} (m : List (String × β)) (k : String) :
    (dictErase m k).length ≤ m.length := by
  unfold dictErase
  exact List.length_filter_le _ _

theorem add_to_history_active (s : Settings) (st : ManagerState) (i : String) (t : Nat) :
    (add_to_history s st i t).active_downloads = st.active_downloads := by
  unfold add_to_history
  split <;> rfl

theorem cleanup_one_active_le (s : Settings) (st : ManagerState) (i : String) (t : Nat) :
    (cleanup_one s st i t).active_downloads.length ≤ st.active_downloads.length := by
  unfold cleanup_one
  calc (dictErase (add_to_history s st i t).active_downloads i).length
      ≤ (add_to_history s st i t).active_downloads.length := dictErase_length_le _ _
    _ = st.active_downloads.length := by rw [add_to_history_active]

theorem cleanup_fold_active_le (s : Settings) (t : Nat) (ids : List String)
    (st : ManagerState) :
    (ids.foldl (fun acc i => cleanup_one s acc i t) st).active_downloads.length
      ≤ st.active_downloads.length := by
  induction ids generalizing st with
  | nil => exact Nat.le_refl _
  | cons i rest ih =>
    exact Nat.le_trans (ih (cleanup_one s st i t)) (cleanup_one_active_le s st i t)

theorem cleanup_completed_active_le (s : Settings) (st : ManagerState) (t : Nat) :
    (cleanup_completed s st t).active_downloads.length ≤ st.active_downloads.length := by
  unfold cleanup_completed
  exact cleanup_fold_active_le s t _ st

theorem promoteFrom_length_le (s : Settings) (t : Nat) (q : List DownloadInfo)
    (active : List (String × DownloadStatus))
    (h : active.length ≤ s.MAX_CONCURRENT_DOWNLOADS) :
    (promoteFrom s active t q).1.length ≤ s.MAX_CONCURRENT_DOWNLOADS := by
  induction q generalizing active with
  | nil => exact h
  | cons info rest ih =>
    rw [promoteFrom]
    split
    · rename_i hlt
      exact ih _ (Nat.le_trans (dictInsert_length_le _ _ _) hlt)
    · exact h

/-- Every manager operation preserves the bound
`active_downloads.length ≤ MAX_CONCURRENT_DOWNLOADS`: submissions are
queued at capacity, queue promotion rechecks capacity before every pop,
and nothing else grows the active map. -/
theorem applyOp_active_le (s : Settings) (st : ManagerState) (op : Op)
    (h : st.active_downloads.length ≤ s.MAX_CONCURRENT_DOWNLOADS) :
    (applyOp s st op).active_downloads.length ≤ s.MAX_CONCURRENT_DOWNLOADS := by
  cases op with
  | submit t appid name validate =>
    simp only [applyOp, start_download]
    split
    · exact h
    · rename_i hcap
      simp only [start_download_thread]
      exact Nat.le_trans (dictInsert_length_le _ _ _) (Nat.lt_of_not_le hcap)
  | workerFinish i ok msg t =>
    simp only [applyOp, download_worker_finish]
    rw [add_to_history_active]
    simpa [dictModify_length] using h
  | queuePass t =>
    simp only [applyOp, process_queue_pass]
    exact promoteFrom_length_le s t _ _
      (Nat.le_trans (cleanup_completed_active_le s st t) h)
  | cancel i t =>
    simp only [applyOp, cancel_download]
    split
    · rw [add_to_history_active]
      simpa [dictModify_length] using h
    · split
      · exact h
      · exact h

theorem runOps_active_le (s : Settings) (ops : List Op) (st : ManagerState)
    (h : st.active_downloads.length ≤ s.MAX_CONCURRENT_DOWNLOADS) :
    (runOps s st ops).active_downloads.length ≤ s.MAX_CONCURRENT_DOWNLOADS := by
  induction ops generalizing st with
  | nil => exact h
  | cons op rest ih => exact ih (applyOp s st op) (applyOp_active_le s st op h)

theorem nonTerminalCount_le_active (st : ManagerState) :
    nonTerminalCount st ≤ st.active_downloads.length := by
  unfold nonTerminalCount
  exact List.length_filter_le _ _

/-! ### src/main.py direct submissions (`handle_download`) -/

/-- One entry of main.py's global `active_downloads` dict, as built by
`handle_download` (main.py lines 91-101); `process` records whether a
live process object has been attached (`None` at creation). -/
structure MainEntry where
  appid : String
  game_name : String
  progress : ℚ
  status : String
  speed : String
  eta : String
  start_time : Nat
  process : Bool
deriving DecidableEq, Repr

/-- main.py `handle_download` (lines 64-119): a direct submission.  It
registers the job as Starting under a fresh id and spawns its thread
unconditionally — there is no concurrency-limit check on this path. -/
def handle_download (active : List (String × MainEntry)) (t : Nat)
    (appid game_name : String) : String × List (String × MainEntry) :=
  let download_id := "dl_" ++ appid ++ "_" ++ toString t
  (download_id,
    dictInsert active download_id
      ⟨appid, game_name, 0, "Starting", "0 MB/s", "Calculating...", t, false⟩)

/-- Number of non-terminal jobs in main.py's active map. -/
def mainNonTerminalCount (active : List (String × MainEntry)) : Nat :=
  (active.filter (fun p =>
    !(p.2.status == "Completed" || p.2.status == "Failed" || p.2.status == "Cancelled"))).length

/-! ### Claim C2 -/

/-- C2 (counterexample): the claim says that for every sequence of
submissions, direct or enqueued, at most N jobs (default N = 1) are ever
in a non-terminal active state, the rest being queued.  Two direct
`handle_download` submissions in main.py both start immediately: the
active map then holds two Starting jobs while the default limit is 1. -/
theorem c2_counterexample_direct_submissions_exceed_cap :
    mainNonTerminalCount (handle_download (handle_download [] 100 "10" "A").2 100 "20" "B").2 = 2 ∧
    defaultSettings.MAX_CONCURRENT_DOWNLOADS = 1 := by
  with_unfolding_all decide

/-- C2 (amended): in `DownloadManager` (downloader.py) the claim holds —
over every operation sequence from the initial state the number of
non-terminal active jobs never exceeds `MAX_CONCURRENT_DOWNLOADS`
(default 1), and a submission arriving at capacity only appends to the
queue, leaving the active map untouched; in main.py, however, a direct
`handle_download` submission starts unconditionally and the cap can be
exceeded (see the counterexample). -/
theorem c2_manager_concurrency_cap (s : Settings) (ops : List Op) (st : ManagerState)
    (t : Nat) (appid name : String) (validate : Bool)
    (hcap : s.MAX_CONCURRENT_DOWNLOADS ≤ st.active_downloads.length) :
    nonTerminalCount (runOps s initialState ops) ≤ s.MAX_CONCURRENT_DOWNLOADS ∧
    defaultSettings.MAX_CONCURRENT_DOWNLOADS = 1 ∧
    (start_download s st t appid name validate).2.active_downloads = st.active_downloads ∧
    (start_download s st t appid name validate).2.download_queue
      = st.download_queue ++ [⟨mkDownloadId t appid, appid, name, validate⟩] := by
  refine ⟨?_, rfl, ?_, ?_⟩
  · exact Nat.le_trans (nonTerminalCount_le_active _)
      (runOps_active_le s ops initialState (Nat.zero_le _))
  · simp [start_download, hcap]
  · simp [start_download, hcap]

/-- Witness for `c2_manager_concurrency_cap`: a three-operation run and a
full-capacity one-job state receiving a further submission. -/
theorem c2_manager_concurrency_cap_witness :
    nonTerminalCount (runOps defaultSettings initialState
      [Op.submit 100 "10" "A" true, Op.submit 101 "20" "B" true, Op.queuePass 200])
        ≤ defaultSettings.MAX_CONCURRENT_DOWNLOADS ∧
    defaultSettings.MAX_CONCURRENT_DOWNLOADS = 1 ∧
    (start_download defaultSettings
      ⟨[("dl_100_10", ⟨"dl_100_10", "10", "A", 0, "Starting", 100, none⟩)], [], []⟩
      101 "20" "B" true).2.active_downloads
        = [("dl_100_10", ⟨"dl_100_10", "10", "A", 0, "Starting", 100, none⟩)] ∧
    (start_download defaultSettings
      ⟨[("dl_100_10", ⟨"dl_100_10", "10", "A", 0, "Starting", 100, none⟩)], [], []⟩
      101 "20" "B" true).2.download_queue
        = [] ++ [⟨mkDownloadId 101 "20", "20", "B", true⟩] :=
  c2_manager_concurrency_cap defaultSettings
    [Op.submit 100 "10" "A" true, Op.submit 101 "20" "B" true, Op.queuePass 200]
    ⟨[("dl_100_10", ⟨"dl_100_10", "10", "A", 0, "Starting", 100, none⟩)], [], []⟩
    101 "20" "B" true (by with_unfolding_all decide)

/-! ### Claim C4 -/

/-- C4 (counterexample): the claim says `Cancel` returns false whenever the
job is already terminal.  A Completed job that has not yet been removed
from the active map by the periodic cleanup is still a key of
`active_downloads`, so `cancel_download` returns true for it (and even
re-marks it Cancelled). -/
theorem c4_counterexample_cancel_terminal_returns_true :
    (cancel_download defaultSettings
      ⟨[("dl_100_10", ⟨"dl_100_10", "10", "A", 100, "Completed", 100, none⟩)], [], []⟩
      "dl_100_10" 130).1 = true ∧
    (⟨"dl_100_10", "10", "A", 100, "Completed", 100, none⟩ : DownloadStatus).status
      = "Completed" := by
  with_unfolding_all decide

/-- C4 (amended): `cancel_download` returns true exactly when the id is a
key of the active map — whatever that job's status, terminal included —
or occurs in the queue; when the id is not active, cancellation touches
neither the active map nor the history (in particular a queued job is
removed without the worker machinery ever being invoked), and the queue
is the original queue with the first entry carrying that id removed. -/
theorem c4_cancel_active_or_queued (s : Settings) (st : ManagerState) (i : String) (t : Nat) :
    ((cancel_download s st i t).1 = true ↔
      dictMem st.active_downloads i = true ∨
        st.download_queue.any (fun info => info.id == i) = true) ∧
    (dictMem st.active_downloads i = false →
      (cancel_download s st i t).2.active_downloads = st.active_downloads ∧
      (cancel_download s st i t).2.download_history = st.download_history ∧
      (cancel_download s st i t).2.download_queue
        = st.download_queue.eraseP (fun info => info.id == i)) := by
  unfold cancel_download
  rcases hmem : dictMem st.active_downloads i with - | -
  · rcases hq : st.download_queue.any (fun info => info.id == i) with - | -
    · have herase : st.download_queue.eraseP (fun info => info.id == i) = st.download_queue :=
        List.eraseP_of_forall_not (fun a ha => by simpa using List.any_eq_false.mp hq a ha)
      exact ⟨by simp [hq], fun _ => ⟨rfl, rfl, by simp [herase]⟩⟩
    · exact ⟨by simp [hq], fun _ => ⟨rfl, rfl, rfl⟩⟩
  · exact ⟨by simp, fun hfalse => absurd hfalse (by simp)⟩

/-- Witness for `c4_cancel_active_or_queued`: cancelling a queued job. -/
theorem c4_cancel_active_or_queued_witness :
    ((cancel_download defaultSettings ⟨[], [⟨"dl_100_10", "10", "A", true⟩], []⟩
        "dl_100_10" 130).1 = true ↔
      dictMem ([] : List (String × DownloadStatus)) "dl_100_10" = true ∨
        ([⟨"dl_100_10", "10", "A", true⟩] : List DownloadInfo).any
          (fun info => info.id == "dl_100_10") = true) ∧
    (dictMem ([] : List (String × DownloadStatus)) "dl_100_10" = false →
      (cancel_download defaultSettings ⟨[], [⟨"dl_100_10", "10", "A", true⟩], []⟩
        "dl_100_10" 130).2.active_downloads = [] ∧
      (cancel_download defaultSettings ⟨[], [⟨"dl_100_10", "10", "A", true⟩], []⟩
        "dl_100_10" 130).2.download_history = [] ∧
      (cancel_download defaultSettings ⟨[], [⟨"dl_100_10", "10", "A", true⟩], []⟩
        "dl_100_10" 130).2.download_queue
        = ([⟨"dl_100_10", "10", "A", true⟩] : List DownloadInfo).eraseP
            (fun info => info.id == "dl_100_10")) :=
  c4_cancel_active_or_queued defaultSettings ⟨[], [⟨"dl_100_10", "10", "A", true⟩], []⟩
    "dl_100_10" 130

/-! ### Claim C6 -/

/-- Fold a sequence of terminal-job snapshots into the (initially empty)
history store through `_add_to_history`'s append-and-trim. -/
def histRun (s : Settings) (es : List HistEntry) : List HistEntry :=
  es.foldl (history_append s) []

theorem history_append_length_le (s : Settings) (h : List HistEntry) (e : HistEntry)
    (hl : h.length ≤ s.MAX_HISTORY_SIZE) :
    (history_append s h e).length ≤ s.MAX_HISTORY_SIZE := by
  simp only [history_append]
  split
  · rename_i hgt
    simp only [List.length_tail, List.length_append, List.length_cons, List.length_nil] at hgt ⊢
    omega
  · rename_i hle
    simp only [Nat.not_lt, List.length_append, List.length_cons, List.length_nil] at hle ⊢
    omega

theorem histRun_fold_length_le (s : Settings) (es acc : List HistEntry)
    (hl : acc.length ≤ s.MAX_HISTORY_SIZE) :
    (es.foldl (history_append s) acc).length ≤ s.MAX_HISTORY_SIZE := by
  induction es generalizing acc with
  | nil => exact hl
  | cons e rest ih => exact ih _ (history_append_length_le s acc e hl)

theorem history_append_suffix_mono (s : Settings) (h : List HistEntry) (e : HistEntry)
    (pre : List HistEntry) (hsuf : h <:+ pre) :
    history_append s h e <:+ pre ++ [e] := by
  have happ : h ++ [e] <:+ pre ++ [e] := by
    obtain ⟨u, hu⟩ := hsuf
    exact ⟨u, by rw [← hu, List.append_assoc]⟩
  simp only [history_append]
  split
  · exact List.IsSuffix.trans (List.tail_suffix _) happ
  · exact happ

theorem histRun_fold_suffix (s : Settings) (es acc pre : List HistEntry)
    (hsuf : acc <:+ pre) :
    es.foldl (history_append s) acc <:+ pre ++ es := by
  induction es generalizing acc pre with
  | nil => simpa using hsuf
  | cons e rest ih =>
    have := ih (history_append s acc e) (pre ++ [e])
      (history_append_suffix_mono s acc e pre hsuf)
    simpa [List.append_assoc] using this

/-- C6: the history store is a bounded FIFO.  Folding any sequence of
terminal-job snapshots into the empty store keeps the length at most
`MAX_HISTORY_SIZE` (default 50); the store is always a suffix of the
append sequence, so surviving entries appear in insertion order; and an
append to a store at capacity evicts exactly the oldest entry, producing
`h.tail ++ [e]`. -/
theorem c6_history_bounded_fifo (s : Settings) (es : List HistEntry)
    (h : List HistEntry) (e : HistEntry)
    (hlen : h.length = s.MAX_HISTORY_SIZE) (hpos : 0 < s.MAX_HISTORY_SIZE) :
    (histRun s es).length ≤ s.MAX_HISTORY_SIZE ∧
    histRun s es <:+ es ∧
    history_append s h e = h.tail ++ [e] ∧
    defaultSettings.MAX_HISTORY_SIZE = 50 := by
  refine ⟨histRun_fold_length_le s es [] (Nat.zero_le _), ?_, ?_, rfl⟩
  · have := histRun_fold_suffix s es [] [] List.nil_suffix
    simpa [histRun] using this
  · simp only [history_append]
    rw [if_pos (by simp [hlen])]
    cases h with
    | nil =>
      rw [List.length_nil] at hlen
      omega
    | cons a h2 => simp

/-- Witness for `c6_history_bounded_fifo`: three appends into an empty
store, and one append into a store already holding 50 entries. -/
theorem c6_history_bounded_fifo_witness :
    (histRun defaultSettings
        [⟨"a", "1", "A", "Completed", none, 10⟩, ⟨"b", "2", "B", "Failed", some "x", 20⟩,
         ⟨"c", "3", "C", "Completed", none, 30⟩]).length
      ≤ defaultSettings.MAX_HISTORY_SIZE ∧
    histRun defaultSettings
        [⟨"a", "1", "A", "Completed", none, 10⟩, ⟨"b", "2", "B", "Failed", some "x", 20⟩,
         ⟨"c", "3", "C", "Completed", none, 30⟩] <:+
      [⟨"a", "1", "A", "Completed", none, 10⟩, ⟨"b", "2", "B", "Failed", some "x", 20⟩,
       ⟨"c", "3", "C", "Completed", none, 30⟩] ∧
    history_append defaultSettings
        (List.replicate 50 ⟨"a", "1", "A", "Completed", none, 10⟩)
        ⟨"b", "2", "B", "Failed", some "x", 20⟩
      = (List.replicate 50 (⟨"a", "1", "A", "Completed", none, 10⟩ : HistEntry)).tail
          ++ [⟨"b", "2", "B", "Failed", some "x", 20⟩] ∧
    defaultSettings.MAX_HISTORY_SIZE = 50 :=
  c6_history_bounded_fifo defaultSettings
    [⟨"a", "1", "A", "Completed", none, 10⟩, ⟨"b", "2", "B", "Failed", some "x", 20⟩,
     ⟨"c", "3", "C", "Completed", none, 30⟩]
    (List.replicate 50 ⟨"a", "1", "A", "Completed", none, 10⟩)
    ⟨"b", "2", "B", "Failed", some "x", 20⟩
    (by simp [defaultSettings]) (by simp [defaultSettings])

/-! ### Claim C7 -/

/-- C7: a job reaching a terminal state is recorded in history twice.
After `_download_worker` finishes (success or failure) the job has one
history entry, stamped with the worker's finish time, and is still in the
active map; once the periodic `_cleanup_completed` pass runs (more than
60 seconds after the job started), the job has a second, later-stamped
history entry and only then leaves the active map. -/
theorem c7_terminal_job_recorded_twice (appid name message : String) (validate : Bool)
    (success : Bool) (t0 t1 t2 : Nat) (h60 : 60 < t2 - t0) (hlt : t1 < t2) :
    (download_worker_finish defaultSettings
        (start_download defaultSettings initialState t0 appid name validate).2
        (mkDownloadId t0 appid) success message t1).download_history.length = 1 ∧
    dictMem (download_worker_finish defaultSettings
        (start_download defaultSettings initialState t0 appid name validate).2
        (mkDownloadId t0 appid) success message t1).active_downloads
        (mkDownloadId t0 appid) = true ∧
    ((cleanup_completed defaultSettings
        (download_worker_finish defaultSettings
          (start_download defaultSettings initialState t0 appid name validate).2
          (mkDownloadId t0 appid) success message t1)
        t2).download_history.filter
          (fun e => e.id == mkDownloadId t0 appid)).length = 2 ∧
    ((cleanup_completed defaultSettings
        (download_worker_finish defaultSettings
          (start_download defaultSettings initialState t0 appid name validate).2
          (mkDownloadId t0 appid) success message t1)
        t2).download_history.map (fun e => e.completed_at)) = [t1, t2] ∧ t1 < t2 ∧
    dictMem (cleanup_completed defaultSettings
        (download_worker_finish defaultSettings
          (start_download defaultSettings initialState t0 appid name validate).2
          (mkDownloadId t0 appid) success message t1)
        t2).active_downloads (mkDownloadId t0 appid) = false := by
  cases success <;>
    simp [start_download, initialState, defaultSettings, start_download_thread, dictInsert,
      initStatus, download_worker_finish, dictModify, add_to_history, dictFind?,
      history_append, cleanup_completed, cleanup_one, dictErase, dictMem,
      decide_eq_true h60, hlt]

/-- Witness for `c7_terminal_job_recorded_twice` at a concrete failing
job and concrete times. -/
theorem c7_terminal_job_recorded_twice_witness :
    (download_worker_finish defaultSettings
        (start_download defaultSettings initialState 100 "730" "CS" true).2
        (mkDownloadId 100 "730") false "Download failed: Unknown error occurred"
        110).download_history.length = 1 ∧
    dictMem (download_worker_finish defaultSettings
        (start_download defaultSettings initialState 100 "730" "CS" true).2
        (mkDownloadId 100 "730") false "Download failed: Unknown error occurred"
        110).active_downloads (mkDownloadId 100 "730") = true ∧
    ((cleanup_completed defaultSettings
        (download_worker_finish defaultSettings
          (start_download defaultSettings initialState 100 "730" "CS" true).2
          (mkDownloadId 100 "730") false "Download failed: Unknown error occurred" 110)
        161).download_history.filter
          (fun e => e.id == mkDownloadId 100 "730")).length = 2 ∧
    ((cleanup_completed defaultSettings
        (download_worker_finish defaultSettings
          (start_download defaultSettings initialState 100 "730" "CS" true).2
          (mkDownloadId 100 "730") false "Download failed: Unknown error occurred" 110)
        161).download_history.map (fun e => e.completed_at)) = [110, 161] ∧ 110 < 161 ∧
    dictMem (cleanup_completed defaultSettings
        (download_worker_finish defaultSettings
          (start_download defaultSettings initialState 100 "730" "CS" true).2
          (mkDownloadId 100 "730") false "Download failed: Unknown error occurred" 110)
        161).active_downloads (mkDownloadId 100 "730") = false :=
  c7_terminal_job_recorded_twice "730" "CS" "Download failed: Unknown error occurred"
    true false 100 110 161 (by decide) (by decide)

/-! ### Claim C10 -/

/-- A submission event as seen by `DownloadManager.start_download`: its
position in the overall submission sequence, the integer second at which
it runs (`int(time.time())`), and the target appid. -/
structure Submission where
  idx : Nat
  t : Nat
  appid : String
deriving DecidableEq, Repr

/-- The id `start_download` assigns to a submission
(downloader.py line 55). -/
def assignedId (sub : Submission) : String :=
  mkDownloadId sub.t sub.appid

/-- C10 (counterexample): the claim says distinct submissions always get
distinct ids and an id is never reused.  Two distinct submissions of the
same appid within the same second get the identical id, and a second
`start_download` call on the updated manager state returns the same id
the first call already assigned. -/
theorem c10_counterexample_id_collision :
    (⟨0, 1000, "730"⟩ : Submission) ≠ ⟨1, 1000, "730"⟩ ∧
    assignedId ⟨0, 1000, "730"⟩ = assignedId ⟨1, 1000, "730"⟩ ∧
    (start_download defaultSettings
        (start_download defaultSettings initialState 1000 "730" "CS" true).2
        1000 "730" "CS2" true).1
      = (start_download defaultSettings initialState 1000 "730" "CS" true).1 := by
  with_unfolding_all decide

/-- The id returned by `start_download` depends only on the submission
second and the appid. -/
theorem start_download_fst (s : Settings) (st : ManagerState) (t : Nat)
    (appid name : String) (validate : Bool) :
    (start_download s st t appid name validate).1 = mkDownloadId t appid := by
  simp only [start_download]
  split <;> rfl

/-- C10 (amended): the assigned identifier is the pure function
`dl_{int(time.time())}_{appid}` of the submission second and the target:
it is independent of the scheduler state, the game name and the validate
flag, so any two submissions sharing second and appid — even distinct
ones, even after the first job has terminated — receive the identical
identifier; ids are not unique per submission. -/
theorem c10_id_determined_by_second_and_appid (s1 s2 : Settings)
    (st1 st2 : ManagerState) (t1 t2 : Nat) (a1 a2 n1 n2 : String) (v1 v2 : Bool)
    (ht : t1 = t2) (ha : a1 = a2) :
    (start_download s1 st1 t1 a1 n1 v1).1 = (start_download s2 st2 t2 a2 n2 v2).1 := by
  rw [start_download_fst, start_download_fst, ht, ha]

/-- Witness for `c10_id_determined_by_second_and_appid`: two submissions
differing in state, name and flag but sharing second and appid. -/
theorem c10_id_determined_by_second_and_appid_witness :
    (start_download defaultSettings initialState 1000 "730" "CS" true).1
      = (start_download ⟨3, 7⟩
          ⟨[], [⟨"dl_9_8", "8", "Q", false⟩], []⟩ 1000 "730" "Other" false).1 :=
  c10_id_determined_by_second_and_appid defaultSettings ⟨3, 7⟩ initialState
    ⟨[], [⟨"dl_9_8", "8", "Q", false⟩], []⟩ 1000 1000 "730" "730" "CS" "Other"
    true false rfl rfl

/-! ### Claim C5: main.py `cancel_download` and the non-reentrant lock -/

/-- Acquiring a Python `threading.Lock`: yields the new held flag, or
`none` when the caller already holds it — `threading.Lock` is not
reentrant, so that acquisition blocks forever. -/
def acquireNonReentrant (held : Bool) : Option Bool :=
  if held then none else some true

/-- main.py `cancel_download` (lines 661-704) with its `queue_lock`
acquisitions explicit; `none` models a call that never returns.  The
function enters `with queue_lock` at line 665 and, on the path where the
entry holds a live process object, reaches the nested `with queue_lock`
at line 688 while still holding the lock from line 665.  The
`process_download_queue()` call and the return after it are unreachable
on that path; the surrounding `try` cannot rescue a blocked acquisition,
so it changes nothing. -/
def cancel_download_main (active : List (String × MainEntry)) (download_id : String) :
    Option (String × List (String × MainEntry)) := do
  let lk ← acquireNonReentrant false
  match dictFind? active download_id with
  | none => pure ("Download " ++ download_id ++ " not found", active)
  | some entry =>
    if entry.process then
      let active1 := dictModify active download_id
        (fun e => { e with status := "Cancelling..." })
      let _ ← acquireNonReentrant lk
      pure ("Download " ++ download_id ++ " is being cancelled",
        dictErase active1 download_id)
    else
      pure ("Download " ++ download_id ++ " cancelled (no process was running)",
        dictErase active download_id)

/-- C5: cancelling an active download whose entry holds a live process
object never returns — the call deadlocks re-acquiring the non-reentrant
`queue_lock` it already holds — while the claim (and the spec) require
`Cancel` to return in bounded time.  The paths without a live process do
return. -/
theorem c5_cancel_deadlocks_on_live_process (active : List (String × MainEntry))
    (download_id : String) (entry : MainEntry)
    (hfind : dictFind? active download_id = some entry)
    (hproc : entry.process = true) :
    cancel_download_main active download_id = none ∧
    (∀ a2 : List (String × MainEntry), ∀ i2 : String, dictFind? a2 i2 = none →
      cancel_download_main a2 i2 = some ("Download " ++ i2 ++ " not found", a2)) := by
  constructor
  · simp [cancel_download_main, acquireNonReentrant, hfind, hproc]
  · intro a2 i2 hnone
    simp [cancel_download_main, acquireNonReentrant, hnone]

/-- Witness for `c5_cancel_deadlocks_on_live_process`: a concrete active
map whose single entry carries a live process. -/
theorem c5_cancel_deadlocks_on_live_process_witness :
    cancel_download_main
        [("dl_10_100", ⟨"10", "A", 50, "Downloading", "1 MB/s", "10m", 100, true⟩)]
        "dl_10_100" = none ∧
    (∀ a2 : List (String × MainEntry), ∀ i2 : String, dictFind? a2 i2 = none →
      cancel_download_main a2 i2 = some ("Download " ++ i2 ++ " not found", a2)) :=
  c5_cancel_deadlocks_on_live_process
    [("dl_10_100", ⟨"10", "A", 50, "Downloading", "1 MB/s", "10m", 100, true⟩)]
    "dl_10_100" ⟨"10", "A", 50, "Downloading", "1 MB/s", "10m", 100, true⟩
    (by with_unfolding_all decide) rfl

end GameDownloader
